import Mathlib

/-!
Verification of the pushback robot ball-handling controllers.

The scoring controller (class IndexerSystem, src/src/indexer.cpp) and the
color-sorting controller (class ColorSensorSystem, the color_sensor.cpp
translation unit) are shallowly embedded.  Motor velocity commands are
modelled twice over: as a register state (the last commanded velocity of
each motor) and as an ordered event trace, so that command-ordering
properties can be stated.  The millisecond clock is an explicit Nat input
to each operation; the blocking pros delays inside one call do not change
any modelled state and are dropped.  The PTO coupling driver is external
to the repository, so it is modelled as an abstract device: an Option Bool
(none = the pto_system pointer is null, some b = present with
isDrivetrainMode() = b), and every operation that commands a pneumatic
switch takes a Bool input ptoOk saying whether the physical switch takes
effect; a failed switch leaves the physical state unchanged.
-/

namespace Pushback

/-- Scoring mode of the indexer (enum class ScoringMode in indexer.h). -/
inductive ScoringMode where
  | NONE
  | COLLECTION
  | MID_GOAL
  | LOW_GOAL
  | TOP_GOAL
deriving DecidableEq, Repr, Fintype

/-- Execution direction of the indexer (enum class ExecutionDirection). -/
inductive ExecutionDirection where
  | NONE
  | FRONT
  | BACK
  | STORAGE
deriving DecidableEq, Repr, Fintype

/-- Ball colors reported by the optical sensors (enum class BallColor). -/
inductive BallColor where
  | UNKNOWN
  | NO_BALL
  | RED
  | BLUE
deriving DecidableEq, Repr, Fintype

/-- Color sorting modes (enum class SortingMode). -/
inductive SortingMode where
  | COLLECT_RED
  | COLLECT_BLUE
  | COLLECT_ALL
  | EJECT_ALL
deriving DecidableEq, Repr, Fintype

/-- Ball travel directions (enum class BallDirection). -/
inductive BallDirection where
  | UNKNOWN
  | FORWARD
  | REVERSE
  | STATIONARY
deriving DecidableEq, Repr, Fintype

/-! Velocity and capacity constants, reproduced from config.h. -/

def INPUT_MOTOR_SPEED : Int := 550
def INPUT_MOTOR_REVERSE_SPEED : Int := -300
def LEFT_INDEXER_FRONT_COLLECTION_SPEED : Int := -550
def LEFT_INDEXER_FRONT_MID_GOAL_SPEED : Int := 300
def LEFT_INDEXER_FRONT_TOP_GOAL_SPEED : Int := -350
def LEFT_INDEXER_BACK_COLLECTION_SPEED : Int := 150
def LEFT_INDEXER_BACK_MID_GOAL_SPEED : Int := -550
def LEFT_INDEXER_BACK_TOP_GOAL_SPEED : Int := -350
def RIGHT_INDEXER_COLLECTION_SPEED : Int := -350
def RIGHT_INDEXER_MID_GOAL_SPEED : Int := 500
def RIGHT_INDEXER_TOP_GOAL_SPEED : Int := -550
def RIGHT_INDEXER_TOP_GOAL_HELPER_SPEED : Int := -350
def TOP_INDEXER_FRONT_SPEED : Int := 400
def TOP_INDEXER_BACK_SPEED : Int := -400
def TOP_INDEXER_STORAGE_TO_FRONT_SPEED : Int := 200
def TOP_INDEXER_STORAGE_TO_BACK_SPEED : Int := -200

/-- Raw valve value for an open front flap (config.h: reversed wiring). -/
def FRONT_FLAP_OPEN : Bool := false

/-- Raw valve value for a closed front flap. -/
def FRONT_FLAP_CLOSED : Bool := true

/-- Storage capacity.  indexer.h is not present under src/, but the
repository fixes the value at 3 throughout: the storage test file counts
to 3/3, STORAGE_TESTING_GUIDE.md describes a 3-ball limit, and
getStorageVisual() in indexer.cpp renders exactly the counts 0..3. -/
def MAX_STORAGE_BALLS : Int := 3

/-- One observable command issued to the actuators: a velocity command to
one of the four motors, a raw valve value written to the front flap
solenoid, or a PTO coupling command (drivetrain = true, scorer = false). -/
inductive Act where
  | inputVel (v : Int)
  | leftVel (v : Int)
  | rightVel (v : Int)
  | topVel (v : Int)
  | flapValve (raw : Bool)
  | ptoCmd (drivetrain : Bool)
deriving DecidableEq, Repr

/-- Operator-facing feedback messages printed to the controller screen. -/
inductive Feedback where
  | needMode
  | storageFull
  | ptoError
  | storing
  | pressModeFirst
  | pushForward
  | pushBackward
  | frontMsg
  | backMsg
  | stoppedMsg
  | lowTimeoutMsg
  | timeoutMsg
deriving DecidableEq, Repr

/-- The mutable state of IndexerSystem, together with the last commanded
velocity of each of the four motors (input = intake, left and right middle
rollers, top roller) and the abstract PTO coupling. -/
structure IndexerState where
  current_mode : ScoringMode
  last_direction : ExecutionDirection
  scoring_active : Bool
  scoring_start_time : Nat
  input_start_time : Nat
  input_motor_active : Bool
  score_from_top_storage : Bool
  front_flap_open : Bool
  storage_ball_count : Int
  input_vel : Int
  left_vel : Int
  right_vel : Int
  top_vel : Int
  pto : Option Bool
deriving DecidableEq, Repr

/-- Result of running one indexer operation: the new state, the ordered
trace of actuator commands issued, and the feedback messages produced. -/
structure OpResult where
  st : IndexerState
  tr : List Act
  fb : List Feedback
deriving DecidableEq, Repr

/-- An operation step that changes nothing and issues nothing. -/
def OpResult.nil (s : IndexerState) : OpResult := ⟨s, [], []⟩

/-- Sequential composition: run the continuation on the resulting state and
concatenate traces and feedback. -/
def OpResult.seq (r : OpResult) (f : IndexerState → OpResult) : OpResult :=
  let r2 := f r.st
  ⟨r2.st, r.tr ++ r2.tr, r.fb ++ r2.fb⟩

/-! Primitive motor and valve operations of IndexerSystem. -/

def runLeftIndexer (v : Int) (s : IndexerState) : OpResult :=
  ⟨{ s with left_vel := v }, [Act.leftVel v], []⟩

def runRightIndexer (v : Int) (s : IndexerState) : OpResult :=
  ⟨{ s with right_vel := v }, [Act.rightVel v], []⟩

def runTopIndexer (v : Int) (s : IndexerState) : OpResult :=
  ⟨{ s with top_vel := v }, [Act.topVel v], []⟩

def openFrontFlap (s : IndexerState) : OpResult :=
  ⟨{ s with front_flap_open := true }, [Act.flapValve FRONT_FLAP_OPEN], []⟩

def closeFrontFlap (s : IndexerState) : OpResult :=
  ⟨{ s with front_flap_open := false }, [Act.flapValve FRONT_FLAP_CLOSED], []⟩

def toggleFrontFlap (s : IndexerState) : OpResult :=
  if s.front_flap_open then closeFrontFlap s else openFrontFlap s

def startInput (now : Nat) (s : IndexerState) : OpResult :=
  if s.input_motor_active then OpResult.nil s
  else
    ⟨{ s with input_vel := INPUT_MOTOR_SPEED, input_motor_active := true,
              input_start_time := now },
     [Act.inputVel INPUT_MOTOR_SPEED], []⟩

def startInputReverse (now : Nat) (s : IndexerState) : OpResult :=
  if s.input_motor_active then OpResult.nil s
  else
    ⟨{ s with input_vel := INPUT_MOTOR_REVERSE_SPEED, input_motor_active := true,
              input_start_time := now },
     [Act.inputVel INPUT_MOTOR_REVERSE_SPEED], []⟩

def stopInput (s : IndexerState) : OpResult :=
  if s.input_motor_active then
    ⟨{ s with input_vel := 0, input_motor_active := false }, [Act.inputVel 0], []⟩
  else OpResult.nil s

/-- IndexerSystem::stopAll: the intake is zeroed twice defensively, then
the left, right and top rollers are stopped, the front flap closed, and
the activity flags and direction cleared. -/
def stopAll (s : IndexerState) : OpResult :=
  ⟨{ s with input_vel := 0, left_vel := 0, right_vel := 0, top_vel := 0,
            front_flap_open := false,
            scoring_active := false, input_motor_active := false,
            last_direction := ExecutionDirection.NONE },
   [Act.inputVel 0, Act.inputVel 0, Act.leftVel 0, Act.rightVel 0, Act.topVel 0,
    Act.flapValve FRONT_FLAP_CLOSED],
   []⟩

/-! Storage ball count management. -/

def isStorageFull (s : IndexerState) : Bool :=
  decide (s.storage_ball_count ≥ MAX_STORAGE_BALLS)

def addBallToStorage (s : IndexerState) : IndexerState × Bool :=
  if s.storage_ball_count ≥ MAX_STORAGE_BALLS then (s, false)
  else ({ s with storage_ball_count := s.storage_ball_count + 1 }, true)

def removeBallFromStorage (s : IndexerState) : IndexerState × Bool :=
  if s.storage_ball_count ≤ 0 then (s, false)
  else ({ s with storage_ball_count := s.storage_ball_count - 1 }, true)

def resetStorageBallCount (s : IndexerState) : IndexerState :=
  { s with storage_ball_count := 0 }

def toggleStorageMode (s : IndexerState) : IndexerState :=
  { s with score_from_top_storage := !s.score_from_top_storage }

/-- If the PTO is present and in drivetrain mode, command it to scorer
mode; the physical switch takes effect only when ptoOk is true. -/
def ptoEnsureScorer (ptoOk : Bool) (s : IndexerState) : OpResult :=
  if s.pto = Option.some true then
    ⟨{ s with pto := Option.some (if ptoOk then false else true) }, [Act.ptoCmd false], []⟩
  else OpResult.nil s

/-- IndexerSystem::verifyPTOForStorage: fails when the PTO pointer is null,
or when a commanded switch to scorer mode reads back as still drivetrain. -/
def verifyPTOForStorage (ptoOk : Bool) (s : IndexerState) : OpResult × Bool :=
  if s.pto = Option.none then (OpResult.nil s, false)
  else if s.pto = Option.some true then
    let after : Bool := if ptoOk then false else true
    (⟨{ s with pto := Option.some after }, [Act.ptoCmd false], []⟩,
     if after then false else true)
  else (OpResult.nil s, true)

/-- Mode dispatch of IndexerSystem::executeFront, covering everything after
the interrupt stop: direction tracking, flap control, PTO preparation, the
per-mode roller commands, and the activity flags.  The state argument is
the post-stop state; mode and the storage-source flag are read from it (an
interrupt stopAll changes neither). -/
def executeFrontDispatch (now : Nat) (ptoOk : Bool) (t0 : IndexerState) : OpResult :=
  let rDir := OpResult.nil { t0 with last_direction := ExecutionDirection.FRONT }
  let rFlap := rDir.seq (fun t =>
    if t.current_mode = ScoringMode.TOP_GOAL then openFrontFlap t
    else if t.current_mode = ScoringMode.COLLECTION then closeFrontFlap t
    else OpResult.nil t)
  let rPto := rFlap.seq (fun t =>
    if t.current_mode = ScoringMode.LOW_GOAL then OpResult.nil t
    else ptoEnsureScorer ptoOk t)
  let rMain := rPto.seq (fun t =>
    match t.current_mode with
    | ScoringMode.COLLECTION =>
        (if t.score_from_top_storage then
          (((OpResult.nil (removeBallFromStorage t).1).seq
              (runLeftIndexer LEFT_INDEXER_FRONT_COLLECTION_SPEED)).seq
              (runTopIndexer TOP_INDEXER_STORAGE_TO_FRONT_SPEED)).seq
              (runRightIndexer RIGHT_INDEXER_COLLECTION_SPEED)
        else
          (((OpResult.nil t).seq (runLeftIndexer LEFT_INDEXER_FRONT_COLLECTION_SPEED)).seq
              (runRightIndexer RIGHT_INDEXER_COLLECTION_SPEED)).seq
              (runTopIndexer TOP_INDEXER_FRONT_SPEED)).seq
          (startInput now)
    | ScoringMode.MID_GOAL =>
        (if t.score_from_top_storage then
          ((OpResult.nil (removeBallFromStorage t).1).seq
              (runLeftIndexer LEFT_INDEXER_FRONT_MID_GOAL_SPEED)).seq
              (runTopIndexer TOP_INDEXER_BACK_SPEED)
        else
          (OpResult.nil t).seq (runLeftIndexer LEFT_INDEXER_FRONT_MID_GOAL_SPEED)).seq
          (startInput now)
    | ScoringMode.LOW_GOAL =>
        if t.score_from_top_storage then
          ((((OpResult.nil (removeBallFromStorage t).1).seq
              (runLeftIndexer LEFT_INDEXER_FRONT_MID_GOAL_SPEED)).seq
              (runTopIndexer TOP_INDEXER_BACK_SPEED)).seq
              (startInputReverse now))
        else
          (OpResult.nil t).seq (startInputReverse now)
    | ScoringMode.TOP_GOAL =>
        ((((OpResult.nil t).seq (runLeftIndexer LEFT_INDEXER_FRONT_TOP_GOAL_SPEED)).seq
            (runTopIndexer TOP_INDEXER_FRONT_SPEED)).seq
            (runRightIndexer RIGHT_INDEXER_TOP_GOAL_HELPER_SPEED)).seq
            (startInput now)
    | ScoringMode.NONE => OpResult.nil t)
  { rMain with st := { rMain.st with scoring_active := true, scoring_start_time := now },
               fb := rMain.fb ++ [Feedback.frontMsg] }

/-- IndexerSystem::executeFront: reject without a mode; interrupt a running
sequence with a full stopAll; then dispatch on the mode. -/
def executeFront (now : Nat) (ptoOk : Bool) (s : IndexerState) : OpResult :=
  if s.current_mode = ScoringMode.NONE then ⟨s, [], [Feedback.needMode]⟩
  else
    (if s.scoring_active then stopAll s else OpResult.nil s).seq
      (executeFrontDispatch now ptoOk)

/-- Mode dispatch of IndexerSystem::executeBack (everything after the
interrupt stop).  executeBack has no flap control of its own. -/
def executeBackDispatch (now : Nat) (ptoOk : Bool) (t0 : IndexerState) : OpResult :=
  let rDir := OpResult.nil { t0 with last_direction := ExecutionDirection.BACK }
  let rPto := rDir.seq (fun t =>
    if t.current_mode = ScoringMode.LOW_GOAL then OpResult.nil t
    else ptoEnsureScorer ptoOk t)
  let rMain := rPto.seq (fun t =>
    match t.current_mode with
    | ScoringMode.COLLECTION =>
        (if t.score_from_top_storage then
          (((OpResult.nil (removeBallFromStorage t).1).seq
              (runLeftIndexer (-LEFT_INDEXER_BACK_COLLECTION_SPEED))).seq
              (runTopIndexer TOP_INDEXER_STORAGE_TO_BACK_SPEED)).seq
              (runRightIndexer RIGHT_INDEXER_COLLECTION_SPEED)
        else
          ((OpResult.nil t).seq (runRightIndexer RIGHT_INDEXER_COLLECTION_SPEED)).seq
              (runLeftIndexer LEFT_INDEXER_BACK_COLLECTION_SPEED)).seq
          (startInput now)
    | ScoringMode.MID_GOAL =>
        (if t.score_from_top_storage then
          (((OpResult.nil (removeBallFromStorage t).1).seq
              (runLeftIndexer LEFT_INDEXER_BACK_MID_GOAL_SPEED)).seq
              (runTopIndexer TOP_INDEXER_STORAGE_TO_BACK_SPEED)).seq
              (runRightIndexer RIGHT_INDEXER_MID_GOAL_SPEED)
        else
          ((OpResult.nil t).seq (runRightIndexer RIGHT_INDEXER_MID_GOAL_SPEED)).seq
              (runLeftIndexer LEFT_INDEXER_BACK_MID_GOAL_SPEED)).seq
          (startInput now)
    | ScoringMode.LOW_GOAL =>
        if t.score_from_top_storage then
          ((((OpResult.nil (removeBallFromStorage t).1).seq
              (runLeftIndexer (-LEFT_INDEXER_BACK_COLLECTION_SPEED))).seq
              (runTopIndexer TOP_INDEXER_STORAGE_TO_BACK_SPEED)).seq
              (startInputReverse now))
        else
          (OpResult.nil t).seq (startInputReverse now)
    | ScoringMode.TOP_GOAL =>
        (if t.score_from_top_storage then
          (((OpResult.nil (removeBallFromStorage t).1).seq
              (runLeftIndexer LEFT_INDEXER_BACK_TOP_GOAL_SPEED)).seq
              (runTopIndexer TOP_INDEXER_STORAGE_TO_BACK_SPEED)).seq
              (runRightIndexer RIGHT_INDEXER_TOP_GOAL_SPEED)
        else
          (((OpResult.nil t).seq (runRightIndexer RIGHT_INDEXER_TOP_GOAL_HELPER_SPEED)).seq
              (runTopIndexer TOP_INDEXER_BACK_SPEED)).seq
              (runLeftIndexer LEFT_INDEXER_BACK_TOP_GOAL_SPEED)).seq
          (startInput now)
    | ScoringMode.NONE => OpResult.nil t)
  { rMain with st := { rMain.st with scoring_active := true, scoring_start_time := now },
               fb := rMain.fb ++ [Feedback.backMsg] }

/-- IndexerSystem::executeBack. -/
def executeBack (now : Nat) (ptoOk : Bool) (s : IndexerState) : OpResult :=
  if s.current_mode = ScoringMode.NONE then ⟨s, [], [Feedback.needMode]⟩
  else
    (if s.scoring_active then stopAll s else OpResult.nil s).seq
      (executeBackDispatch now ptoOk)

/-- IndexerSystem::startIntakeAndStorage: reject when storage is full;
stop a running sequence; verify the PTO for storage and reject with PTO
ERROR on failure; otherwise start the continuous fill sequence and mark
the state as an active STORAGE operation. -/
def startIntakeAndStorage (now : Nat) (ptoOk : Bool) (s : IndexerState) : OpResult :=
  if s.storage_ball_count ≥ MAX_STORAGE_BALLS then ⟨s, [], [Feedback.storageFull]⟩
  else
    let r0 := if s.scoring_active then stopAll s else OpResult.nil s
    let v := verifyPTOForStorage ptoOk r0.st
    if v.2 then
      let r1 : OpResult := ⟨v.1.st, r0.tr ++ v.1.tr, r0.fb ++ v.1.fb⟩
      let r2 := ((((r1.seq (startInput now)).seq closeFrontFlap).seq
          (runTopIndexer 60)).seq
          (runLeftIndexer (LEFT_INDEXER_FRONT_COLLECTION_SPEED / 2))).seq
          (runRightIndexer RIGHT_INDEXER_TOP_GOAL_HELPER_SPEED)
      { r2 with st := { r2.st with scoring_active := true, scoring_start_time := now,
                                   last_direction := ExecutionDirection.STORAGE },
                fb := r2.fb ++ [Feedback.storing] }
    else
      ⟨v.1.st, r0.tr ++ v.1.tr, r0.fb ++ v.1.fb ++ [Feedback.ptoError]⟩

/-- The timeout tail of IndexerSystem::update, run once per tick while a
sequence is active: the LOW_GOAL check fires independently at 3000 ms,
then the general table (STORAGE 8000 ms, COLLECTION push 3000 ms,
otherwise 5000 ms) is evaluated against the same start time. -/
def updateTimeout (now : Nat) (s : IndexerState) : OpResult :=
  if s.scoring_active then
    let r1 :=
      if s.current_mode = ScoringMode.LOW_GOAL ∧ now - s.scoring_start_time > 3000 then
        { stopAll s with fb := [Feedback.lowTimeoutMsg] }
      else OpResult.nil s
    let s1 := r1.st
    let dur : Nat :=
      if s1.last_direction = ExecutionDirection.STORAGE then 8000
      else if s1.current_mode = ScoringMode.COLLECTION ∧
              (s1.last_direction = ExecutionDirection.FRONT ∨
               s1.last_direction = ExecutionDirection.BACK) then 3000
      else 5000
    if now - s1.scoring_start_time > dur then
      let r2 := stopAll s1
      ⟨r2.st, r1.tr ++ r2.tr, r1.fb ++ r2.fb ++ [Feedback.timeoutMsg]⟩
    else r1
  else OpResult.nil s

/-- The push-mode dispatch of the R2 handler in IndexerSystem::update for
mode COLLECTION (everything after the interrupt stop): put the PTO down
into drivetrain mode if it is in scorer mode, then push forward with the
intake motor only. -/
def pushFrontDispatch (now : Nat) (ptoOk : Bool) (t0 : IndexerState) : OpResult :=
  let r1 : OpResult :=
    if t0.pto = Option.some false then
      ⟨{ t0 with pto := Option.some (if ptoOk then true else false) }, [Act.ptoCmd true], []⟩
    else OpResult.nil t0
  let r2 := r1.seq (startInput now)
  { r2 with st := { r2.st with scoring_active := true, scoring_start_time := now,
                               last_direction := ExecutionDirection.FRONT },
            fb := r2.fb ++ [Feedback.pushForward] }

/-- The push-mode dispatch of the R1 handler for mode COLLECTION: PTO down,
then push backward with the intake motor in reverse. -/
def pushBackDispatch (now : Nat) (ptoOk : Bool) (t0 : IndexerState) : OpResult :=
  let r1 : OpResult :=
    if t0.pto = Option.some false then
      ⟨{ t0 with pto := Option.some (if ptoOk then true else false) }, [Act.ptoCmd true], []⟩
    else OpResult.nil t0
  let r2 := r1.seq (startInputReverse now)
  { r2 with st := { r2.st with scoring_active := true, scoring_start_time := now,
                               last_direction := ExecutionDirection.BACK },
            fb := r2.fb ++ [Feedback.pushBackward] }

/-- The R2 (front execute) rising-edge handler of IndexerSystem::update:
no mode selected is rejected; COLLECTION mode goes to push mode; a second
press while FRONT is running toggles back to the storage operation;
otherwise the indexer scoring path executeFront runs. -/
def onFrontExecute (now : Nat) (ptoOk : Bool) (s : IndexerState) : OpResult :=
  if s.current_mode = ScoringMode.NONE then ⟨s, [], [Feedback.pressModeFirst]⟩
  else if s.current_mode = ScoringMode.COLLECTION then
    (if s.scoring_active then stopAll s else OpResult.nil s).seq
      (pushFrontDispatch now ptoOk)
  else if s.scoring_active ∧ s.last_direction = ExecutionDirection.FRONT then
    (stopAll s).seq (startIntakeAndStorage now ptoOk)
  else
    (if s.scoring_active then stopAll s else OpResult.nil s).seq
      (fun t => executeFront now ptoOk { t with last_direction := ExecutionDirection.FRONT })

/-- The R1 (back execute) rising-edge handler of IndexerSystem::update. -/
def onBackExecute (now : Nat) (ptoOk : Bool) (s : IndexerState) : OpResult :=
  if s.current_mode = ScoringMode.NONE then ⟨s, [], [Feedback.pressModeFirst]⟩
  else if s.current_mode = ScoringMode.COLLECTION then
    (if s.scoring_active then stopAll s else OpResult.nil s).seq
      (pushBackDispatch now ptoOk)
  else if s.scoring_active ∧ s.last_direction = ExecutionDirection.BACK then
    (stopAll s).seq (startIntakeAndStorage now ptoOk)
  else
    (if s.scoring_active then stopAll s else OpResult.nil s).seq
      (fun t => executeBack now ptoOk { t with last_direction := ExecutionDirection.BACK })

/-- The state of IndexerSystem right after construction (the constructor
also calls stopAll).  The PTO starts present and in drivetrain mode
(PTO_DEFAULT_STATE = PTO_EXTENDED in config.h). -/
def initState : IndexerState :=
  { current_mode := ScoringMode.NONE, last_direction := ExecutionDirection.NONE,
    scoring_active := false, scoring_start_time := 0, input_start_time := 0,
    input_motor_active := false, score_from_top_storage := false,
    front_flap_open := false, storage_ball_count := 0,
    input_vel := 0, left_vel := 0, right_vel := 0, top_vel := 0,
    pto := Option.some true }

/-! The color sensing and sorting system (class ColorSensorSystem). -/

/-- Number of consistent readings required to confirm a color.  The header
defining COLOR_CONFIRMATION_COUNT is not under src/, but the repository
fixes it at 3: the color sorter documentation states 3 consecutive
consistent readings and COLOR_SORTER_TEST_MODE.md lists the define as 3. -/
def COLOR_CONFIRMATION_COUNT : Nat := 3

/-- The snapshot of the indexer state taken before an ejection
(struct with the saved scoring/input flags and the mode and direction
saved as raw integers). -/
structure SavedIndexerState where
  was_scoring_active : Bool
  was_input_active : Bool
  saved_scoring_mode : Int
  saved_execution_direction : Int
  valid : Bool
deriving DecidableEq, Repr

/-- Integer encoding of ScoringMode used by the snapshot
(static_cast to int).  The case labels of restoreIndexerState fix
COLLECTION = 0, MID_GOAL = 1, LOW_GOAL = 2, TOP_GOAL = 3; indexer.h is
absent from src/, so NONE is taken as 4 — any value outside 0..3 behaves
identically in the restore switch. -/
def ScoringMode.toInt : ScoringMode → Int
  | ScoringMode.COLLECTION => 0
  | ScoringMode.MID_GOAL => 1
  | ScoringMode.LOW_GOAL => 2
  | ScoringMode.TOP_GOAL => 3
  | ScoringMode.NONE => 4

/-- Integer encoding of ExecutionDirection used by the snapshot, per the
case labels of restoreIndexerState: NONE = 0, FRONT = 1, BACK = 2,
STORAGE = 3. -/
def ExecutionDirection.toInt : ExecutionDirection → Int
  | ExecutionDirection.NONE => 0
  | ExecutionDirection.FRONT => 1
  | ExecutionDirection.BACK => 2
  | ExecutionDirection.STORAGE => 3

/-- The mutable state of ColorSensorSystem.  Each channel keeps a ring
buffer of the last COLOR_CONFIRMATION_COUNT classifications and its write
index. -/
structure CSState where
  current_mode : SortingMode
  last_detected_color : BallColor
  last_direction : BallDirection
  sensor1_triggered : Bool
  sensor2_triggered : Bool
  sensor1_trigger_time : Nat
  sensor2_trigger_time : Nat
  ejection_active : Bool
  ejection_start_time : Nat
  ejection_duration : Nat
  saved_indexer_state : SavedIndexerState
  sensor1_color_buffer : Fin 3 → BallColor
  sensor2_color_buffer : Fin 3 → BallColor
  sensor1_buffer_index : Fin 3
  sensor2_buffer_index : Fin 3
  red_balls_detected : Nat
  blue_balls_detected : Nat
  balls_ejected : Nat
  false_detections : Nat
deriving DecidableEq, Repr

/-- The sorter together with its handle to the indexer; idx = none models
a null indexer_system pointer. -/
structure SortSystem where
  cs : CSState
  idx : Option IndexerState
deriving DecidableEq, Repr

/-- Result of one sorter operation: new combined state, actuator trace,
feedback. -/
structure CSResult where
  sys : SortSystem
  tr : List Act
  fb : List Feedback
deriving DecidableEq, Repr

/-- ColorSensorSystem::addToColorBuffer for one channel: write the sample
at the ring index, advance the index mod 3, and report the color as
confirmed exactly when it is neither UNKNOWN nor NO_BALL and every buffer
entry now equals it; otherwise report UNKNOWN. -/
def addToColorBuffer (buf : Fin 3 → BallColor) (idx : Fin 3) (color : BallColor) :
    (Fin 3 → BallColor) × Fin 3 × BallColor :=
  let buf2 := Function.update buf idx color
  let idx2 : Fin 3 := ⟨(idx.val + 1) % 3, Nat.mod_lt _ (by omega)⟩
  if color ≠ BallColor.UNKNOWN ∧ color ≠ BallColor.NO_BALL ∧
     (∀ i : Fin 3, buf2 i = color) then
    (buf2, idx2, color)
  else
    (buf2, idx2, BallColor.UNKNOWN)

/-- Feed a list of raw classifications through one channel ring buffer and
collect the confirmation output of each step. -/
def feedChannel : ((Fin 3 → BallColor) × Fin 3) → List BallColor → List BallColor
  | _, [] => []
  | (buf, idx), c :: rest =>
      let r := addToColorBuffer buf idx c
      r.2.2 :: feedChannel (r.1, r.2.1) rest

/-- A freshly initialized (or reset) channel buffer: every entry NO_BALL. -/
def initChannelBuf : Fin 3 → BallColor := fun _ => BallColor.NO_BALL

/-- ColorSensorSystem::shouldEjectBall as a function of the sorting mode
and the confirmed color. -/
def shouldEjectBall (mode : SortingMode) (color : BallColor) : Bool :=
  match mode with
  | SortingMode.COLLECT_RED => decide (color = BallColor.BLUE)
  | SortingMode.COLLECT_BLUE => decide (color = BallColor.RED)
  | SortingMode.COLLECT_ALL => false
  | SortingMode.EJECT_ALL => true

/-- ColorSensorSystem::saveIndexerState: capture the scoring and input
flags and the mode and direction (as raw integers) into the one-shot
snapshot; a null indexer handle invalidates the snapshot instead. -/
def saveIndexerState (sys : SortSystem) : SortSystem :=
  match sys.idx with
  | Option.none =>
      { sys with cs := { sys.cs with saved_indexer_state :=
          { sys.cs.saved_indexer_state with valid := false } } }
  | Option.some ix =>
      { sys with cs := { sys.cs with saved_indexer_state :=
          ⟨ix.scoring_active, ix.input_motor_active,
           ix.current_mode.toInt, ix.last_direction.toInt, true⟩ } }

/-- ColorSensorSystem::resetDetectionState: clear both trigger flags and
times, the last color and direction, and both ring buffers. -/
def resetDetectionState (cs : CSState) : CSState :=
  { cs with sensor1_triggered := false, sensor2_triggered := false,
            sensor1_trigger_time := 0, sensor2_trigger_time := 0,
            last_detected_color := BallColor.UNKNOWN,
            last_direction := BallDirection.UNKNOWN,
            sensor1_color_buffer := fun _ => BallColor.NO_BALL,
            sensor2_color_buffer := fun _ => BallColor.NO_BALL,
            sensor1_buffer_index := 0, sensor2_buffer_index := 0 }

/-- ColorSensorSystem::restoreIndexerState: with no indexer handle or no
valid snapshot, do nothing; otherwise, when the snapshot recorded an
active operation, re-set the saved mode (an unrecognized code discards the
snapshot) and re-issue the saved direction command; the snapshot is
invalidated on every path that reaches it. -/
def restoreIndexerState (now : Nat) (ptoOk : Bool) (sys : SortSystem) : CSResult :=
  match sys.idx with
  | Option.none => ⟨sys, [], []⟩
  | Option.some ix =>
    if sys.cs.saved_indexer_state.valid = false then ⟨sys, [], []⟩
    else if sys.cs.saved_indexer_state.was_scoring_active then
      let m := sys.cs.saved_indexer_state.saved_scoring_mode
      if m = 0 ∨ m = 1 ∨ m = 2 ∨ m = 3 then
        let ix1 := { ix with current_mode :=
          if m = 0 then ScoringMode.COLLECTION
          else if m = 1 then ScoringMode.MID_GOAL
          else if m = 2 then ScoringMode.LOW_GOAL
          else ScoringMode.TOP_GOAL }
        let d := sys.cs.saved_indexer_state.saved_execution_direction
        let r : OpResult :=
          if d = 1 then executeFront now ptoOk ix1
          else if d = 2 then executeBack now ptoOk ix1
          else if d = 3 then startIntakeAndStorage now ptoOk ix1
          else if sys.cs.saved_indexer_state.was_input_active then
            startIntakeAndStorage now ptoOk ix1
          else OpResult.nil ix1
        ⟨{ cs := { sys.cs with saved_indexer_state :=
             { sys.cs.saved_indexer_state with valid := false } },
           idx := Option.some r.st }, r.tr, r.fb⟩
      else
        ⟨{ sys with cs := { sys.cs with saved_indexer_state :=
             { sys.cs.saved_indexer_state with valid := false } } }, [], []⟩
    else
      ⟨{ sys with cs := { sys.cs with saved_indexer_state :=
           { sys.cs.saved_indexer_state with valid := false } } }, [], []⟩

/-- IndexerSystem::setMidGoalMode (a pure mode change). -/
def setMidGoalMode (s : IndexerState) : IndexerState :=
  { s with current_mode := ScoringMode.MID_GOAL }

/-- ColorSensorSystem::startEjection: with no indexer handle or while an
ejection is already active, do nothing; refuse while the indexer reports
an active scoring operation; otherwise snapshot the indexer, stop it,
mark the ejection active, and drive the back-mid discharge by setting
MID_GOAL mode and calling executeBack. -/
def startEjection (now : Nat) (ptoOk : Bool) (sys : SortSystem) : CSResult :=
  match sys.idx with
  | Option.none => ⟨sys, [], []⟩
  | Option.some ix =>
    if sys.cs.ejection_active then ⟨sys, [], []⟩
    else if ix.scoring_active then ⟨sys, [], []⟩
    else
      let sys1 := saveIndexerState sys
      let r1 := stopAll ix
      let cs2 := { sys1.cs with
        ejection_active := true,
        ejection_start_time := now,
        balls_ejected := sys1.cs.balls_ejected + 1 }
      let r2 := executeBack now ptoOk (setMidGoalMode r1.st)
      ⟨{ cs := cs2, idx := Option.some r2.st }, r1.tr ++ r2.tr, r1.fb ++ r2.fb⟩

/-- ColorSensorSystem::stopEjection: a no-op unless an ejection is active
and the indexer handle exists; otherwise clear the active flag, stop the
indexer, reset the detection state, and attempt the one-shot restore. -/
def stopEjection (now : Nat) (ptoOk : Bool) (sys : SortSystem) : CSResult :=
  match sys.idx with
  | Option.none => ⟨sys, [], []⟩
  | Option.some ix =>
    if sys.cs.ejection_active = false then ⟨sys, [], []⟩
    else
      let cs1 := { sys.cs with ejection_active := false }
      let r1 := stopAll ix
      let cs2 := resetDetectionState cs1
      let r2 := restoreIndexerState now ptoOk { cs := cs2, idx := Option.some r1.st }
      ⟨r2.sys, r1.tr ++ r2.tr, r1.fb ++ r2.fb⟩

/-! Operation alphabet of the scoring controller, used to state invariants
over arbitrary call sequences. -/

/-- One externally invokable operation of IndexerSystem. -/
inductive IdxOp where
  | addBall
  | removeBall
  | resetCount
  | setModeOp (m : ScoringMode)
  | toggleStorage
  | toggleFlap
  | openFlap
  | closeFlap
  | startIn (now : Nat)
  | startInRev (now : Nat)
  | stopIn
  | stopA
  | execFront (now : Nat) (ptoOk : Bool)
  | execBack (now : Nat) (ptoOk : Bool)
  | intakeStorage (now : Nat) (ptoOk : Bool)
  | frontButton (now : Nat) (ptoOk : Bool)
  | backButton (now : Nat) (ptoOk : Bool)
  | tickTimeout (now : Nat)
deriving DecidableEq, Repr

/-- The state transition of one operation. -/
def runOp : IdxOp → IndexerState → IndexerState
  | IdxOp.addBall, s => (addBallToStorage s).1
  | IdxOp.removeBall, s => (removeBallFromStorage s).1
  | IdxOp.resetCount, s => resetStorageBallCount s
  | IdxOp.setModeOp m, s => { s with current_mode := m }
  | IdxOp.toggleStorage, s => toggleStorageMode s
  | IdxOp.toggleFlap, s => (toggleFrontFlap s).st
  | IdxOp.openFlap, s => (openFrontFlap s).st
  | IdxOp.closeFlap, s => (closeFrontFlap s).st
  | IdxOp.startIn now, s => (startInput now s).st
  | IdxOp.startInRev now, s => (startInputReverse now s).st
  | IdxOp.stopIn, s => (stopInput s).st
  | IdxOp.stopA, s => (stopAll s).st
  | IdxOp.execFront now ptoOk, s => (executeFront now ptoOk s).st
  | IdxOp.execBack now ptoOk, s => (executeBack now ptoOk s).st
  | IdxOp.intakeStorage now ptoOk, s => (startIntakeAndStorage now ptoOk s).st
  | IdxOp.frontButton now ptoOk, s => (onFrontExecute now ptoOk s).st
  | IdxOp.backButton now ptoOk, s => (onBackExecute now ptoOk s).st
  | IdxOp.tickTimeout now, s => (updateTimeout now s).st

/-- Run a sequence of operations from the startup state. -/
def runOps (ops : List IdxOp) : IndexerState :=
  ops.foldl (fun s op => runOp op s) initState

/-! Trace replay: observing the motor velocity registers along a command
trace. -/

/-- The observable velocities of the four motors. -/
structure MotorObs where
  input : Int
  left : Int
  right : Int
  top : Int
deriving DecidableEq, Repr

/-- Effect of one actuator command on the motor observation (valve and
coupling commands do not move a motor). -/
def applyActObs (o : MotorObs) : Act → MotorObs
  | Act.inputVel v => { o with input := v }
  | Act.leftVel v => { o with left := v }
  | Act.rightVel v => { o with right := v }
  | Act.topVel v => { o with top := v }
  | Act.flapValve _ => o
  | Act.ptoCmd _ => o

/-- Replay a command trace over a motor observation. -/
def replayObs (o : MotorObs) (tr : List Act) : MotorObs :=
  tr.foldl applyActObs o

/-- The motor observation of an indexer state. -/
def obsOf (s : IndexerState) : MotorObs :=
  ⟨s.input_vel, s.left_vel, s.right_vel, s.top_vel⟩

/-- Is this command a velocity command with a nonzero target? -/
def isNonzeroVelCmd : Act → Bool
  | Act.inputVel v => decide (v ≠ 0)
  | Act.leftVel v => decide (v ≠ 0)
  | Act.rightVel v => decide (v ≠ 0)
  | Act.topVel v => decide (v ≠ 0)
  | Act.flapValve _ => false
  | Act.ptoCmd _ => false

/-- Is this command addressed to one of the three rollers? -/
def isRollerCmd : Act → Bool
  | Act.leftVel _ => true
  | Act.rightVel _ => true
  | Act.topVel _ => true
  | _ => false

/-- The spec timeout table, first match winning: LOW_GOAL 3000 ms
regardless of direction, then STORAGE 8000 ms, then COLLECTION push
3000 ms, otherwise 5000 ms. -/
def timeoutBucket (s : IndexerState) : Nat :=
  if s.current_mode = ScoringMode.LOW_GOAL then 3000
  else if s.last_direction = ExecutionDirection.STORAGE then 8000
  else if s.current_mode = ScoringMode.COLLECTION ∧
          (s.last_direction = ExecutionDirection.FRONT ∨
           s.last_direction = ExecutionDirection.BACK) then 3000
  else 5000

/-! Claims about the color sorter classification. -/

/-- Claim C6: a channel color is confirmed only when all 3 ring-buffer
entries are identical and neither UNKNOWN nor NO_BALL (unanimity, not
majority); from a fresh channel, [RED, RED, BLUE] never confirms,
[RED, RED, RED] confirms RED exactly on the 3rd sample, and
[RED, RED, RED, BLUE, BLUE, BLUE] confirms RED once and then BLUE once. -/
theorem color_confirmation_unanimity :
    (∀ (buf : Fin 3 → BallColor) (idx : Fin 3) (c : BallColor),
        ((addToColorBuffer buf idx c).2.2 ≠ BallColor.UNKNOWN ↔
          (∃ col : BallColor, col ≠ BallColor.UNKNOWN ∧ col ≠ BallColor.NO_BALL ∧
            (∀ i : Fin 3, (addToColorBuffer buf idx c).1 i = col) ∧
            (addToColorBuffer buf idx c).2.2 = col)))
  ∧ feedChannel (initChannelBuf, 0) [BallColor.RED, BallColor.RED, BallColor.BLUE] =
      [BallColor.UNKNOWN, BallColor.UNKNOWN, BallColor.UNKNOWN]
  ∧ feedChannel (initChannelBuf, 0) [BallColor.RED, BallColor.RED, BallColor.RED] =
      [BallColor.UNKNOWN, BallColor.UNKNOWN, BallColor.RED]
  ∧ feedChannel (initChannelBuf, 0)
      [BallColor.RED, BallColor.RED, BallColor.RED,
       BallColor.BLUE, BallColor.BLUE, BallColor.BLUE] =
      [BallColor.UNKNOWN, BallColor.UNKNOWN, BallColor.RED,
       BallColor.UNKNOWN, BallColor.UNKNOWN, BallColor.BLUE] :=
  ⟨by decide, by decide, by decide, by decide⟩

/-- Claim C7: for every confirmed color (RED or BLUE), shouldEjectBall
ejects iff BLUE in COLLECT_RED mode, iff RED in COLLECT_BLUE mode, never
in COLLECT_ALL mode, and always in EJECT_ALL mode. -/
theorem shouldEject_decision (m : SortingMode) (c : BallColor)
    (h : c = BallColor.RED ∨ c = BallColor.BLUE) :
    (m = SortingMode.COLLECT_RED → (shouldEjectBall m c = true ↔ c = BallColor.BLUE))
  ∧ (m = SortingMode.COLLECT_BLUE → (shouldEjectBall m c = true ↔ c = BallColor.RED))
  ∧ (m = SortingMode.COLLECT_ALL → shouldEjectBall m c = false)
  ∧ (m = SortingMode.EJECT_ALL → shouldEjectBall m c = true) := by
  rcases h with h | h <;> subst h <;> cases m <;> simp [shouldEjectBall]

/-- Witness for C7 at the concrete input (COLLECT_RED, BLUE). -/
theorem shouldEject_decision_witness :
    (BallColor.BLUE = BallColor.RED ∨ BallColor.BLUE = BallColor.BLUE)
  ∧ ((SortingMode.COLLECT_RED = SortingMode.COLLECT_RED →
        (shouldEjectBall SortingMode.COLLECT_RED BallColor.BLUE = true ↔
          BallColor.BLUE = BallColor.BLUE))
    ∧ (SortingMode.COLLECT_RED = SortingMode.COLLECT_BLUE →
        (shouldEjectBall SortingMode.COLLECT_RED BallColor.BLUE = true ↔
          BallColor.BLUE = BallColor.RED))
    ∧ (SortingMode.COLLECT_RED = SortingMode.COLLECT_ALL →
        shouldEjectBall SortingMode.COLLECT_RED BallColor.BLUE = false)
    ∧ (SortingMode.COLLECT_RED = SortingMode.EJECT_ALL →
        shouldEjectBall SortingMode.COLLECT_RED BallColor.BLUE = true)) :=
  ⟨Or.inr rfl,
   shouldEject_decision SortingMode.COLLECT_RED BallColor.BLUE (Or.inr rfl)⟩

/-! Concrete states used by witnesses and counterexamples. -/

/-- A mid-goal sequence running with the front flap open. -/
def sActiveMid : IndexerState :=
  { current_mode := ScoringMode.MID_GOAL, last_direction := ExecutionDirection.FRONT,
    scoring_active := true, scoring_start_time := 100, input_start_time := 100,
    input_motor_active := true, score_from_top_storage := false,
    front_flap_open := true, storage_ball_count := 1,
    input_vel := 550, left_vel := 300, right_vel := 0, top_vel := 0,
    pto := Option.some false }

/-- A collection-mode idle state with the PTO in scorer position. -/
def sCollectIdle : IndexerState :=
  { initState with current_mode := ScoringMode.COLLECTION, pto := Option.some false }

/-- An active storage fill whose PTO pointer is null, so that
verifyPTOForStorage fails. -/
def sPtoNullActive : IndexerState :=
  { current_mode := ScoringMode.MID_GOAL, last_direction := ExecutionDirection.FRONT,
    scoring_active := true, scoring_start_time := 100, input_start_time := 100,
    input_motor_active := true, score_from_top_storage := false,
    front_flap_open := false, storage_ball_count := 0,
    input_vel := 550, left_vel := 300, right_vel := 0, top_vel := 0,
    pto := Option.none }

/-- An idle state whose PTO pointer is null. -/
def sPtoNullIdle : IndexerState := { initState with pto := Option.none }

/-- An active low-goal sequence started at time 0. -/
def sLowActive : IndexerState :=
  { initState with current_mode := ScoringMode.LOW_GOAL,
                   last_direction := ExecutionDirection.FRONT,
                   scoring_active := true, scoring_start_time := 0 }

/-- The sorter state right after construction (sorting disabled, nothing
detected, no ejection, no valid snapshot). -/
def initCSState : CSState :=
  { current_mode := SortingMode.COLLECT_ALL,
    last_detected_color := BallColor.UNKNOWN,
    last_direction := BallDirection.UNKNOWN,
    sensor1_triggered := false, sensor2_triggered := false,
    sensor1_trigger_time := 0, sensor2_trigger_time := 0,
    ejection_active := false, ejection_start_time := 0, ejection_duration := 500,
    saved_indexer_state := ⟨false, false, 0, 0, false⟩,
    sensor1_color_buffer := fun _ => BallColor.NO_BALL,
    sensor2_color_buffer := fun _ => BallColor.NO_BALL,
    sensor1_buffer_index := 0, sensor2_buffer_index := 0,
    red_balls_detected := 0, blue_balls_detected := 0,
    balls_ejected := 0, false_detections := 0 }

/-- Sorter plus idle indexer. -/
def sysIdle : SortSystem := ⟨initCSState, Option.some initState⟩

/-- The indexer while it is driving the back-mid ejection discharge. -/
def ixEjecting : IndexerState :=
  { initState with
      current_mode := ScoringMode.MID_GOAL,
      last_direction := ExecutionDirection.BACK,
      scoring_active := true,
      input_motor_active := true,
      input_vel := 550,
      right_vel := 500,
      left_vel := -550 }

/-- Sorter mid-ejection (snapshot valid, captured from an idle indexer). -/
def sysEjecting : SortSystem :=
  ⟨{ initCSState with
      ejection_active := true,
      ejection_start_time := 100,
      saved_indexer_state := ⟨false, false, 4, 0, true⟩ },
   Option.some ixEjecting⟩

/-! Small state equations used to unfold the operation combinators. -/

@[simp] theorem seq_st (r : OpResult) (f : IndexerState → OpResult) :
    (OpResult.seq r f).st = (f r.st).st := rfl

@[simp] theorem seq_tr (r : OpResult) (f : IndexerState → OpResult) :
    (OpResult.seq r f).tr = r.tr ++ (f r.st).tr := rfl

@[simp] theorem seq_fb (r : OpResult) (f : IndexerState → OpResult) :
    (OpResult.seq r f).fb = r.fb ++ (f r.st).fb := rfl

@[simp] theorem nil_st (s : IndexerState) : (OpResult.nil s).st = s := rfl

@[simp] theorem nil_tr (s : IndexerState) : (OpResult.nil s).tr = [] := rfl

@[simp] theorem nil_fb (s : IndexerState) : (OpResult.nil s).fb = [] := rfl

@[simp] theorem runLeftIndexer_st (v : Int) (s : IndexerState) :
    (runLeftIndexer v s).st = { s with left_vel := v } := rfl

@[simp] theorem runRightIndexer_st (v : Int) (s : IndexerState) :
    (runRightIndexer v s).st = { s with right_vel := v } := rfl

@[simp] theorem runTopIndexer_st (v : Int) (s : IndexerState) :
    (runTopIndexer v s).st = { s with top_vel := v } := rfl

@[simp] theorem openFrontFlap_st (s : IndexerState) :
    (openFrontFlap s).st = { s with front_flap_open := true } := rfl

@[simp] theorem closeFrontFlap_st (s : IndexerState) :
    (closeFrontFlap s).st = { s with front_flap_open := false } := rfl

@[simp] theorem startInput_st (now : Nat) (s : IndexerState) :
    (startInput now s).st =
      if s.input_motor_active then s
      else { s with input_vel := INPUT_MOTOR_SPEED, input_motor_active := true,
                    input_start_time := now } := by
  unfold startInput; split <;> rfl

@[simp] theorem startInputReverse_st (now : Nat) (s : IndexerState) :
    (startInputReverse now s).st =
      if s.input_motor_active then s
      else { s with input_vel := INPUT_MOTOR_REVERSE_SPEED, input_motor_active := true,
                    input_start_time := now } := by
  unfold startInputReverse; split <;> rfl

@[simp] theorem ptoEnsureScorer_st (ptoOk : Bool) (s : IndexerState) :
    (ptoEnsureScorer ptoOk s).st =
      if s.pto = Option.some true then
        { s with pto := Option.some (if ptoOk then false else true) }
      else s := by
  unfold ptoEnsureScorer; split <;> rfl

@[simp] theorem removeBallFromStorage_st (s : IndexerState) :
    (removeBallFromStorage s).1 =
      if s.storage_ball_count ≤ 0 then s
      else { s with storage_ball_count := s.storage_ball_count - 1 } := by
  unfold removeBallFromStorage; split <;> rfl

@[simp] theorem startInput_tr (now : Nat) (s : IndexerState) :
    (startInput now s).tr =
      if s.input_motor_active then [] else [Act.inputVel INPUT_MOTOR_SPEED] := by
  unfold startInput; split <;> rfl

@[simp] theorem startInputReverse_tr (now : Nat) (s : IndexerState) :
    (startInputReverse now s).tr =
      if s.input_motor_active then [] else [Act.inputVel INPUT_MOTOR_REVERSE_SPEED] := by
  unfold startInputReverse; split <;> rfl

@[simp] theorem startInput_fb (now : Nat) (s : IndexerState) :
    (startInput now s).fb = [] := by
  unfold startInput; split <;> rfl

@[simp] theorem startInputReverse_fb (now : Nat) (s : IndexerState) :
    (startInputReverse now s).fb = [] := by
  unfold startInputReverse; split <;> rfl

@[simp] theorem ptoEnsureScorer_tr (ptoOk : Bool) (s : IndexerState) :
    (ptoEnsureScorer ptoOk s).tr =
      if s.pto = Option.some true then [Act.ptoCmd false] else [] := by
  unfold ptoEnsureScorer; split <;> rfl

@[simp] theorem ptoEnsureScorer_fb (ptoOk : Bool) (s : IndexerState) :
    (ptoEnsureScorer ptoOk s).fb = [] := by
  unfold ptoEnsureScorer; split <;> rfl

@[simp] theorem stopAll_st (s : IndexerState) :
    (stopAll s).st =
      { s with input_vel := 0, left_vel := 0, right_vel := 0, top_vel := 0,
               front_flap_open := false,
               scoring_active := false, input_motor_active := false,
               last_direction := ExecutionDirection.NONE } := rfl

@[simp] theorem stopAll_tr (s : IndexerState) :
    (stopAll s).tr =
      [Act.inputVel 0, Act.inputVel 0, Act.leftVel 0, Act.rightVel 0, Act.topVel 0,
       Act.flapValve FRONT_FLAP_CLOSED] := rfl

@[simp] theorem stopAll_fb (s : IndexerState) : (stopAll s).fb = [] := rfl

/-! Conditionals commute with every state and result projection. -/

@[simp] theorem ite_current_mode (c : Prop) [Decidable c] (a b : IndexerState) :
    (if c then a else b).current_mode = if c then a.current_mode else b.current_mode := by
  split <;> rfl

@[simp] theorem ite_last_direction (c : Prop) [Decidable c] (a b : IndexerState) :
    (if c then a else b).last_direction = if c then a.last_direction else b.last_direction := by
  split <;> rfl

@[simp] theorem ite_scoring_active (c : Prop) [Decidable c] (a b : IndexerState) :
    (if c then a else b).scoring_active = if c then a.scoring_active else b.scoring_active := by
  split <;> rfl

@[simp] theorem ite_scoring_start_time (c : Prop) [Decidable c] (a b : IndexerState) :
    (if c then a else b).scoring_start_time = if c then a.scoring_start_time else b.scoring_start_time := by
  split <;> rfl

@[simp] theorem ite_input_start_time (c : Prop) [Decidable c] (a b : IndexerState) :
    (if c then a else b).input_start_time = if c then a.input_start_time else b.input_start_time := by
  split <;> rfl

@[simp] theorem ite_input_motor_active (c : Prop) [Decidable c] (a b : IndexerState) :
    (if c then a else b).input_motor_active = if c then a.input_motor_active else b.input_motor_active := by
  split <;> rfl

@[simp] theorem ite_score_from_top_storage (c : Prop) [Decidable c] (a b : IndexerState) :
    (if c then a else b).score_from_top_storage = if c then a.score_from_top_storage else b.score_from_top_storage := by
  split <;> rfl

@[simp] theorem ite_front_flap_open (c : Prop) [Decidable c] (a b : IndexerState) :
    (if c then a else b).front_flap_open = if c then a.front_flap_open else b.front_flap_open := by
  split <;> rfl

@[simp] theorem ite_storage_ball_count (c : Prop) [Decidable c] (a b : IndexerState) :
    (if c then a else b).storage_ball_count = if c then a.storage_ball_count else b.storage_ball_count := by
  split <;> rfl

@[simp] theorem ite_input_vel (c : Prop) [Decidable c] (a b : IndexerState) :
    (if c then a else b).input_vel = if c then a.input_vel else b.input_vel := by
  split <;> rfl

@[simp] theorem ite_left_vel (c : Prop) [Decidable c] (a b : IndexerState) :
    (if c then a else b).left_vel = if c then a.left_vel else b.left_vel := by
  split <;> rfl

@[simp] theorem ite_right_vel (c : Prop) [Decidable c] (a b : IndexerState) :
    (if c then a else b).right_vel = if c then a.right_vel else b.right_vel := by
  split <;> rfl

@[simp] theorem ite_top_vel (c : Prop) [Decidable c] (a b : IndexerState) :
    (if c then a else b).top_vel = if c then a.top_vel else b.top_vel := by
  split <;> rfl

@[simp] theorem ite_pto (c : Prop) [Decidable c] (a b : IndexerState) :
    (if c then a else b).pto = if c then a.pto else b.pto := by
  split <;> rfl

@[simp] theorem ite_res_st (c : Prop) [Decidable c] (a b : OpResult) :
    (if c then a else b).st = if c then a.st else b.st := by
  split <;> rfl

@[simp] theorem ite_res_tr (c : Prop) [Decidable c] (a b : OpResult) :
    (if c then a else b).tr = if c then a.tr else b.tr := by
  split <;> rfl

@[simp] theorem ite_res_fb (c : Prop) [Decidable c] (a b : OpResult) :
    (if c then a else b).fb = if c then a.fb else b.fb := by
  split <;> rfl

/-! Claim C5: flap frame effect of the execute calls. -/

/-- Claim C5 (amended): provided no sequence is running, an execute call
opens the flap only for (TOP_GOAL, FRONT), closes it only for
(COLLECTION, FRONT), and otherwise leaves it untouched; when a running
sequence is interrupted, the interrupting stopAll first closes the flap,
so the final flap state is open exactly for (TOP_GOAL, FRONT) and closed
for every other (mode, direction) pair. -/
theorem flap_frame_effect (s : IndexerState) (now : Nat) (ok : Bool)
    (hm : s.current_mode ≠ ScoringMode.NONE) :
    (s.scoring_active = false →
        (executeFront now ok s).st.front_flap_open =
          (if s.current_mode = ScoringMode.TOP_GOAL then true
           else if s.current_mode = ScoringMode.COLLECTION then false
           else s.front_flap_open)
      ∧ (executeBack now ok s).st.front_flap_open = s.front_flap_open)
  ∧ (s.scoring_active = true →
        (executeFront now ok s).st.front_flap_open =
          decide (s.current_mode = ScoringMode.TOP_GOAL)
      ∧ (executeBack now ok s).st.front_flap_open = false) := by
  constructor
  · intro ha
    constructor
    · cases hmode : s.current_mode <;>
        simp [executeFront, executeFrontDispatch, hmode, ha]
    · cases hmode : s.current_mode <;>
        simp [executeBack, executeBackDispatch, hmode, ha]
  · intro ha
    constructor
    · cases hmode : s.current_mode <;>
        first
        | exact absurd hmode hm
        | simp [executeFront, executeFrontDispatch, stopAll, hmode, ha]
    · cases hmode : s.current_mode <;>
        first
        | exact absurd hmode hm
        | simp [executeBack, executeBackDispatch, stopAll, hmode, ha]

/-- Counterexample to claim C5 as stated: in the (MID_GOAL, FRONT) pair —
neither (TOP_GOAL, FRONT) nor (COLLECTION, FRONT) — an executeFront call
that interrupts a running sequence does not leave the flap as it was: the
flap was open before the call and is closed after it. -/
theorem flap_frame_counterexample :
    sActiveMid.current_mode = ScoringMode.MID_GOAL
  ∧ sActiveMid.current_mode ≠ ScoringMode.NONE
  ∧ sActiveMid.front_flap_open = true
  ∧ (executeFront 200 true sActiveMid).st.front_flap_open = false := by
  refine ⟨rfl, by decide, rfl, ?_⟩
  rfl

/-- Witness for C5 at the concrete running mid-goal state. -/
theorem flap_frame_effect_witness :
    (sActiveMid.current_mode ≠ ScoringMode.NONE)
  ∧ ((sActiveMid.scoring_active = false →
        (executeFront 200 true sActiveMid).st.front_flap_open =
          (if sActiveMid.current_mode = ScoringMode.TOP_GOAL then true
           else if sActiveMid.current_mode = ScoringMode.COLLECTION then false
           else sActiveMid.front_flap_open)
      ∧ (executeBack 200 true sActiveMid).st.front_flap_open = sActiveMid.front_flap_open)
    ∧ (sActiveMid.scoring_active = true →
        (executeFront 200 true sActiveMid).st.front_flap_open =
          decide (sActiveMid.current_mode = ScoringMode.TOP_GOAL)
      ∧ (executeBack 200 true sActiveMid).st.front_flap_open = false)) :=
  ⟨by decide, flap_frame_effect sActiveMid 200 true (by decide)⟩

/-! Claim C3: interrupting execute always passes through a full stop. -/

/-- Claim C3: for every mode other than NONE, calling executeFront or
executeBack while a sequence is active first performs a full stopAll —
the command trace begins with the stopAll commands, whose replay drives
all four motor velocity registers to zero and which contain no nonzero
velocity command — before any command of the new dispatch is issued. -/
theorem execute_interrupt_full_stop (s : IndexerState) (now : Nat) (ok : Bool)
    (hm : s.current_mode ≠ ScoringMode.NONE) (ha : s.scoring_active = true) :
    ((executeFront now ok s).tr =
        (stopAll s).tr ++ (executeFrontDispatch now ok (stopAll s).st).tr)
  ∧ ((executeBack now ok s).tr =
        (stopAll s).tr ++ (executeBackDispatch now ok (stopAll s).st).tr)
  ∧ replayObs (obsOf s) (stopAll s).tr = ⟨0, 0, 0, 0⟩
  ∧ (∀ a ∈ (stopAll s).tr, isNonzeroVelCmd a = false) := by
  refine ⟨?_, ?_, ?_, ?_⟩
  · simp [executeFront, hm, ha]
  · simp [executeBack, hm, ha]
  · rfl
  · intro a h
    fin_cases h <;> rfl

/-- Witness for C3 at the concrete running mid-goal state. -/
theorem execute_interrupt_full_stop_witness :
    (sActiveMid.current_mode ≠ ScoringMode.NONE)
  ∧ (sActiveMid.scoring_active = true)
  ∧ (((executeFront 200 true sActiveMid).tr =
        (stopAll sActiveMid).tr ++
          (executeFrontDispatch 200 true (stopAll sActiveMid).st).tr)
    ∧ ((executeBack 200 true sActiveMid).tr =
        (stopAll sActiveMid).tr ++
          (executeBackDispatch 200 true (stopAll sActiveMid).st).tr)
    ∧ replayObs (obsOf sActiveMid) (stopAll sActiveMid).tr = ⟨0, 0, 0, 0⟩
    ∧ (∀ a ∈ (stopAll sActiveMid).tr, isNonzeroVelCmd a = false)) :=
  ⟨by decide, rfl,
   execute_interrupt_full_stop sActiveMid 200 true (by decide) rfl⟩

/-! Claim C4: COLLECTION-mode push commands. -/

/-- Claim C4: with mode COLLECTION, the front and back execute commands of
the tick handler take the push-mode path: after the interrupt stop, the
dispatch issues only a PTO-down (drivetrain) command and one intake
command — forward speed for FRONT, reverse speed for BACK — and never a
left, right or top roller command; on success the controller is active
with the requested direction recorded and the coupling forced into
drivetrain state. -/
theorem collection_push_mode (s : IndexerState) (now : Nat) (ok : Bool)
    (hm : s.current_mode = ScoringMode.COLLECTION) :
    (onFrontExecute now ok s =
        OpResult.seq (if s.scoring_active then stopAll s else OpResult.nil s)
          (pushFrontDispatch now ok))
  ∧ (onBackExecute now ok s =
        OpResult.seq (if s.scoring_active then stopAll s else OpResult.nil s)
          (pushBackDispatch now ok))
  ∧ (∀ (t : IndexerState), ∀ a ∈ (pushFrontDispatch now ok t).tr,
        a = Act.ptoCmd true ∨ a = Act.inputVel INPUT_MOTOR_SPEED)
  ∧ (∀ (t : IndexerState), ∀ a ∈ (pushBackDispatch now ok t).tr,
        a = Act.ptoCmd true ∨ a = Act.inputVel INPUT_MOTOR_REVERSE_SPEED)
  ∧ (s.scoring_active = true ∨ s.input_motor_active = false →
        (onFrontExecute now ok s).st.input_vel = INPUT_MOTOR_SPEED
      ∧ Act.inputVel INPUT_MOTOR_SPEED ∈ (onFrontExecute now ok s).tr
      ∧ (onBackExecute now ok s).st.input_vel = INPUT_MOTOR_REVERSE_SPEED
      ∧ Act.inputVel INPUT_MOTOR_REVERSE_SPEED ∈ (onBackExecute now ok s).tr)
  ∧ ((onFrontExecute now ok s).st.scoring_active = true
      ∧ (onFrontExecute now ok s).st.last_direction = ExecutionDirection.FRONT
      ∧ (onFrontExecute now ok s).st.scoring_start_time = now
      ∧ (onBackExecute now ok s).st.scoring_active = true
      ∧ (onBackExecute now ok s).st.last_direction = ExecutionDirection.BACK
      ∧ (onBackExecute now ok s).st.scoring_start_time = now)
  ∧ (ok = true → ∀ b : Bool, s.pto = Option.some b →
        (onFrontExecute now ok s).st.pto = Option.some true
      ∧ (onBackExecute now ok s).st.pto = Option.some true) := by
  refine ⟨?_, ?_, ?_, ?_, ?_, ?_, ?_⟩
  · simp [onFrontExecute, hm]
  · simp [onBackExecute, hm]
  · intro t a h
    simp [pushFrontDispatch] at h
    tauto
  · intro t a h
    simp [pushBackDispatch] at h
    tauto
  · intro h
    rcases h with h | h <;>
      simp [onFrontExecute, onBackExecute, pushFrontDispatch, pushBackDispatch,
        hm, h, stopAll]
  · simp [onFrontExecute, onBackExecute, pushFrontDispatch, pushBackDispatch, hm]
  · intro hok b hb
    cases b <;>
      simp [onFrontExecute, onBackExecute, pushFrontDispatch, pushBackDispatch,
        hm, hok, hb, stopAll]

/-- Witness for C4 at the concrete idle collection state. -/
theorem collection_push_mode_witness :
    (sCollectIdle.current_mode = ScoringMode.COLLECTION)
  ∧ ((onFrontExecute 50 true sCollectIdle =
        OpResult.seq
          (if sCollectIdle.scoring_active then stopAll sCollectIdle
           else OpResult.nil sCollectIdle)
          (pushFrontDispatch 50 true))
    ∧ (onBackExecute 50 true sCollectIdle =
        OpResult.seq
          (if sCollectIdle.scoring_active then stopAll sCollectIdle
           else OpResult.nil sCollectIdle)
          (pushBackDispatch 50 true))
    ∧ (∀ (t : IndexerState), ∀ a ∈ (pushFrontDispatch 50 true t).tr,
          a = Act.ptoCmd true ∨ a = Act.inputVel INPUT_MOTOR_SPEED)
    ∧ (∀ (t : IndexerState), ∀ a ∈ (pushBackDispatch 50 true t).tr,
          a = Act.ptoCmd true ∨ a = Act.inputVel INPUT_MOTOR_REVERSE_SPEED)
    ∧ (sCollectIdle.scoring_active = true ∨ sCollectIdle.input_motor_active = false →
          (onFrontExecute 50 true sCollectIdle).st.input_vel = INPUT_MOTOR_SPEED
        ∧ Act.inputVel INPUT_MOTOR_SPEED ∈ (onFrontExecute 50 true sCollectIdle).tr
        ∧ (onBackExecute 50 true sCollectIdle).st.input_vel = INPUT_MOTOR_REVERSE_SPEED
        ∧ Act.inputVel INPUT_MOTOR_REVERSE_SPEED ∈ (onBackExecute 50 true sCollectIdle).tr)
    ∧ ((onFrontExecute 50 true sCollectIdle).st.scoring_active = true
        ∧ (onFrontExecute 50 true sCollectIdle).st.last_direction = ExecutionDirection.FRONT
        ∧ (onFrontExecute 50 true sCollectIdle).st.scoring_start_time = 50
        ∧ (onBackExecute 50 true sCollectIdle).st.scoring_active = true
        ∧ (onBackExecute 50 true sCollectIdle).st.last_direction = ExecutionDirection.BACK
        ∧ (onBackExecute 50 true sCollectIdle).st.scoring_start_time = 50)
    ∧ (true = true → ∀ b : Bool, sCollectIdle.pto = Option.some b →
          (onFrontExecute 50 true sCollectIdle).st.pto = Option.some true
        ∧ (onBackExecute 50 true sCollectIdle).st.pto = Option.some true)) :=
  ⟨rfl, collection_push_mode sCollectIdle 50 true rfl⟩

/-! Claim C1: the timeout table. -/

/-- Claim C1: while a sequence is active, each tick stops it exactly when
the elapsed time exceeds its bucket of the first-match timeout table
(LOW_GOAL 3000 ms regardless of direction, then STORAGE 8000 ms, then
COLLECTION push 3000 ms, otherwise 5000 ms); every expiry lands in the
stopAll state, and a sequence within its bucket is left untouched — so an
active sequence never outlives its bucket. -/
theorem timeout_policy (s : IndexerState) (now : Nat) (h : s.scoring_active = true) :
    ((updateTimeout now s).st.scoring_active = false ↔
        timeoutBucket s < now - s.scoring_start_time)
  ∧ (timeoutBucket s < now - s.scoring_start_time →
        (updateTimeout now s).st = (stopAll s).st)
  ∧ (now - s.scoring_start_time ≤ timeoutBucket s →
        (updateTimeout now s).st = s) := by
  refine ⟨?_, fun he => ?_, fun he => ?_⟩
  · cases hmode : s.current_mode <;> cases hdir : s.last_direction <;>
      simp [updateTimeout, timeoutBucket, h, hmode, hdir, stopAll] <;>
      first
      | omega
      | (split_ifs <;> omega)
  · simp only [timeoutBucket] at he
    cases hmode : s.current_mode <;> cases hdir : s.last_direction <;>
      simp [hmode, hdir] at he <;>
      simp [updateTimeout, h, hmode, hdir, stopAll] <;>
      omega
  · simp only [timeoutBucket] at he
    cases hmode : s.current_mode <;> cases hdir : s.last_direction <;>
      simp [hmode, hdir] at he <;>
      simp [updateTimeout, h, hmode, hdir, stopAll] <;>
      first
      | omega
      | rfl
      | (split_ifs <;> first | rfl | omega)

/-- Witness for C1: a LOW_GOAL front sequence started at 0 is stopped by
the tick at 4000 ms even though the generic bucket would allow 5000 ms. -/
theorem timeout_policy_witness :
    (sLowActive.scoring_active = true)
  ∧ (((updateTimeout 4000 sLowActive).st.scoring_active = false ↔
        timeoutBucket sLowActive < 4000 - sLowActive.scoring_start_time)
    ∧ (timeoutBucket sLowActive < 4000 - sLowActive.scoring_start_time →
        (updateTimeout 4000 sLowActive).st = (stopAll sLowActive).st)
    ∧ (4000 - sLowActive.scoring_start_time ≤ timeoutBucket sLowActive →
        (updateTimeout 4000 sLowActive).st = sLowActive)) :=
  ⟨rfl, timeout_policy sLowActive 4000 rfl⟩

/-! Claim C2: the storage count invariant. -/

theorem count_startIntakeAndStorage (now : Nat) (ok : Bool) (s : IndexerState)
    (h0 : 0 ≤ s.storage_ball_count) (h3 : s.storage_ball_count ≤ 3) :
    0 ≤ (startIntakeAndStorage now ok s).st.storage_ball_count ∧
    (startIntakeAndStorage now ok s).st.storage_ball_count ≤ 3 := by
  simp [startIntakeAndStorage, verifyPTOForStorage]
  split_ifs <;> simp_all

set_option maxHeartbeats 1600000 in
theorem count_executeFront (now : Nat) (ok : Bool) (s : IndexerState)
    (h0 : 0 ≤ s.storage_ball_count) (h3 : s.storage_ball_count ≤ 3) :
    0 ≤ (executeFront now ok s).st.storage_ball_count ∧
    (executeFront now ok s).st.storage_ball_count ≤ 3 := by
  cases hmode : s.current_mode <;>
    simp [executeFront, executeFrontDispatch, hmode] <;>
    first
    | omega
    | (split_ifs <;> simp_all <;> omega)

set_option maxHeartbeats 1600000 in
theorem count_executeBack (now : Nat) (ok : Bool) (s : IndexerState)
    (h0 : 0 ≤ s.storage_ball_count) (h3 : s.storage_ball_count ≤ 3) :
    0 ≤ (executeBack now ok s).st.storage_ball_count ∧
    (executeBack now ok s).st.storage_ball_count ≤ 3 := by
  cases hmode : s.current_mode <;>
    simp [executeBack, executeBackDispatch, hmode] <;>
    first
    | omega
    | (split_ifs <;> simp_all <;> omega)

set_option maxHeartbeats 1600000 in
theorem count_onFrontExecute (now : Nat) (ok : Bool) (s : IndexerState)
    (h0 : 0 ≤ s.storage_ball_count) (h3 : s.storage_ball_count ≤ 3) :
    0 ≤ (onFrontExecute now ok s).st.storage_ball_count ∧
    (onFrontExecute now ok s).st.storage_ball_count ≤ 3 := by
  by_cases h1 : s.current_mode = ScoringMode.NONE
  · simp [onFrontExecute, h1]; omega
  · by_cases h2 : s.current_mode = ScoringMode.COLLECTION
    · simp [onFrontExecute, h1, h2, pushFrontDispatch] <;>
        first
        | omega
        | (split_ifs <;> simp_all)
    · by_cases hb : (s.scoring_active = true ∧ s.last_direction = ExecutionDirection.FRONT)
      · simp [onFrontExecute, h1, h2, hb]
        refine count_startIntakeAndStorage now ok _ ?_ ?_ <;> simp <;> omega
      · by_cases ha : s.scoring_active = true
        · have hd : ¬(s.last_direction = ExecutionDirection.FRONT) :=
            fun hdd => hb ⟨ha, hdd⟩
          simp [onFrontExecute, h1, h2, ha, hd]
          refine count_executeFront now ok _ ?_ ?_ <;> simp <;> omega
        · simp [onFrontExecute, h1, h2, hb, ha]
          refine count_executeFront now ok _ ?_ ?_ <;> simp <;> omega

set_option maxHeartbeats 1600000 in
theorem count_onBackExecute (now : Nat) (ok : Bool) (s : IndexerState)
    (h0 : 0 ≤ s.storage_ball_count) (h3 : s.storage_ball_count ≤ 3) :
    0 ≤ (onBackExecute now ok s).st.storage_ball_count ∧
    (onBackExecute now ok s).st.storage_ball_count ≤ 3 := by
  by_cases h1 : s.current_mode = ScoringMode.NONE
  · simp [onBackExecute, h1]; omega
  · by_cases h2 : s.current_mode = ScoringMode.COLLECTION
    · simp [onBackExecute, h1, h2, pushBackDispatch] <;>
        first
        | omega
        | (split_ifs <;> simp_all)
    · by_cases hb : (s.scoring_active = true ∧ s.last_direction = ExecutionDirection.BACK)
      · simp [onBackExecute, h1, h2, hb]
        refine count_startIntakeAndStorage now ok _ ?_ ?_ <;> simp <;> omega
      · by_cases ha : s.scoring_active = true
        · have hd : ¬(s.last_direction = ExecutionDirection.BACK) :=
            fun hdd => hb ⟨ha, hdd⟩
          simp [onBackExecute, h1, h2, ha, hd]
          refine count_executeBack now ok _ ?_ ?_ <;> simp <;> omega
        · simp [onBackExecute, h1, h2, hb, ha]
          refine count_executeBack now ok _ ?_ ?_ <;> simp <;> omega

set_option maxHeartbeats 1600000 in
theorem count_runOp (op : IdxOp) (s : IndexerState)
    (h0 : 0 ≤ s.storage_ball_count) (h3 : s.storage_ball_count ≤ 3) :
    0 ≤ (runOp op s).storage_ball_count ∧ (runOp op s).storage_ball_count ≤ 3 := by
  cases op with
  | execFront now ok => exact count_executeFront now ok s h0 h3
  | execBack now ok => exact count_executeBack now ok s h0 h3
  | intakeStorage now ok => exact count_startIntakeAndStorage now ok s h0 h3
  | frontButton now ok => exact count_onFrontExecute now ok s h0 h3
  | backButton now ok => exact count_onBackExecute now ok s h0 h3
  | tickTimeout now =>
      simp only [runOp, updateTimeout]
      split_ifs <;> simp_all
  | addBall =>
      simp only [runOp, addBallToStorage, MAX_STORAGE_BALLS]
      split_ifs <;> simp_all <;> omega
  | removeBall =>
      simp [runOp]
      split_ifs <;> simp_all <;> omega
  | toggleFlap =>
      simp only [runOp, toggleFrontFlap]
      split_ifs <;> simp_all
  | startIn now => simp only [runOp, startInput_st]; split_ifs <;> simp_all
  | startInRev now => simp only [runOp, startInputReverse_st]; split_ifs <;> simp_all
  | stopIn =>
      simp only [runOp, stopInput]
      split_ifs <;> simp_all
  | _ => simp_all [runOp, resetStorageBallCount, toggleStorageMode]

/-- Claim C2: along every sequence of controller operations from startup
the storage count stays within [0, 3]; adding at count 3 fails and leaves
the count at 3, removing at count 0 fails and leaves the count at 0. -/
theorem storage_count_invariant :
    (∀ ops : List IdxOp,
        0 ≤ (runOps ops).storage_ball_count ∧ (runOps ops).storage_ball_count ≤ 3)
  ∧ (∀ s : IndexerState, s.storage_ball_count = 3 → addBallToStorage s = (s, false))
  ∧ (∀ s : IndexerState, s.storage_ball_count = 0 → removeBallFromStorage s = (s, false)) := by
  refine ⟨?_, ?_, ?_⟩
  · have hseq : ∀ (ops : List IdxOp) (s : IndexerState),
        0 ≤ s.storage_ball_count → s.storage_ball_count ≤ 3 →
        0 ≤ (ops.foldl (fun t op => runOp op t) s).storage_ball_count ∧
        (ops.foldl (fun t op => runOp op t) s).storage_ball_count ≤ 3 := by
      intro ops
      induction ops with
      | nil => intro s h0 h3; exact ⟨h0, h3⟩
      | cons op rest ih =>
          intro s h0 h3
          exact ih (runOp op s) (count_runOp op s h0 h3).1 (count_runOp op s h0 h3).2
    intro ops
    exact hseq ops initState (by simp [initState]) (by simp [initState])
  · intro s hs
    simp [addBallToStorage, MAX_STORAGE_BALLS, hs]
  · intro s hs
    simp [removeBallFromStorage, hs]

/-- Witness for C2: the empty call sequence, a full store, an empty
store. -/
theorem storage_count_invariant_witness :
    (0 ≤ (runOps []).storage_ball_count ∧ (runOps []).storage_ball_count ≤ 3)
  ∧ ({ initState with storage_ball_count := 3 }.storage_ball_count = 3
      ∧ addBallToStorage { initState with storage_ball_count := 3 } =
          ({ initState with storage_ball_count := 3 }, false))
  ∧ (initState.storage_ball_count = 0
      ∧ removeBallFromStorage initState = (initState, false)) :=
  ⟨storage_count_invariant.1 [],
   ⟨rfl, storage_count_invariant.2.1 { initState with storage_ball_count := 3 } rfl⟩,
   ⟨rfl, storage_count_invariant.2.2 initState rfl⟩⟩

/-! Claim C8: PTO verification failure during startIntakeAndStorage. -/

/-- Counterexample to claim C8 as stated: startIntakeAndStorage called
while a sequence is active and the coupling verification fails does NOT
leave the state as it was immediately before the call — the interrupt
stopAll has already cleared the active flag and zeroed the motors before
the PTO check runs. -/
theorem pto_error_counterexample :
    (startIntakeAndStorage 200 true sPtoNullActive).fb = [Feedback.ptoError]
  ∧ sPtoNullActive.scoring_active = true
  ∧ (startIntakeAndStorage 200 true sPtoNullActive).st.scoring_active = false
  ∧ sPtoNullActive.input_vel = 550
  ∧ (startIntakeAndStorage 200 true sPtoNullActive).st.input_vel = 0
  ∧ (startIntakeAndStorage 200 true sPtoNullActive).st ≠ sPtoNullActive := by
  refine ⟨rfl, rfl, rfl, rfl, rfl, ?_⟩
  decide

/-- Claim C8 (amended): when the coupling fails to verify scorer state
during startIntakeAndStorage (null PTO handle, or a commanded switch that
does not take effect) and storage is not full, the call reports PTO ERROR
and issues no motor or valve command of its own; if the controller was
idle at the call the state is exactly the pre-call state (the only
possible command is the ineffective coupling command itself), while if a
sequence was active the resulting state is the stopAll state of the
pre-call state. -/
theorem pto_error_rejection (s : IndexerState) (now : Nat) (ok : Bool)
    (hfull : s.storage_ball_count < MAX_STORAGE_BALLS)
    (hfail : s.pto = Option.none ∨ (s.pto = Option.some true ∧ ok = false)) :
    ((startIntakeAndStorage now ok s).fb = [Feedback.ptoError])
  ∧ (∀ a ∈ (startIntakeAndStorage now ok s).tr,
        isNonzeroVelCmd a = false ∧ (s.scoring_active = false → a = Act.ptoCmd false))
  ∧ (s.scoring_active = false → (startIntakeAndStorage now ok s).st = s)
  ∧ (s.scoring_active = true → (startIntakeAndStorage now ok s).st = (stopAll s).st) := by
  have hn : ¬(s.storage_ball_count ≥ MAX_STORAGE_BALLS) := by omega
  rcases hfail with hp | ⟨hp, hok⟩
  · refine ⟨?_, ?_, ?_, ?_⟩
    · by_cases ha : s.scoring_active = true <;>
        simp [startIntakeAndStorage, verifyPTOForStorage, hn, hp, ha]
    · intro a hmem
      by_cases ha : s.scoring_active = true
      · simp [startIntakeAndStorage, verifyPTOForStorage, hn, hp, ha] at hmem
        refine ⟨?_, fun hc => absurd (ha ▸ hc) (by decide)⟩
        rcases hmem with rfl | rfl | rfl | rfl | rfl | rfl <;> rfl
      · simp [startIntakeAndStorage, verifyPTOForStorage, hn, hp, ha] at hmem
    · intro ha
      simp [startIntakeAndStorage, verifyPTOForStorage, hn, hp, ha]
    · intro ha
      simp [startIntakeAndStorage, verifyPTOForStorage, hn, hp, ha]
  · subst hok
    refine ⟨?_, ?_, ?_, ?_⟩
    · by_cases ha : s.scoring_active = true <;>
        simp [startIntakeAndStorage, verifyPTOForStorage, hn, hp, ha]
    · intro a hmem
      by_cases ha : s.scoring_active = true
      · simp [startIntakeAndStorage, verifyPTOForStorage, hn, hp, ha] at hmem
        refine ⟨?_, fun hc => absurd (ha ▸ hc) (by decide)⟩
        rcases hmem with rfl | rfl | rfl | rfl | rfl | rfl | rfl <;> rfl
      · simp [startIntakeAndStorage, verifyPTOForStorage, hn, hp, ha] at hmem
        subst hmem
        exact ⟨rfl, fun _ => rfl⟩
    · intro ha
      cases s
      simp_all [startIntakeAndStorage, verifyPTOForStorage]
    · intro ha
      simp [startIntakeAndStorage, verifyPTOForStorage, hn, hp, ha]

/-- Witness for C8 at the concrete idle state with a null PTO handle. -/
theorem pto_error_rejection_witness :
    (sPtoNullIdle.storage_ball_count < MAX_STORAGE_BALLS)
  ∧ (sPtoNullIdle.pto = Option.none ∨
      (sPtoNullIdle.pto = Option.some true ∧ true = false))
  ∧ (((startIntakeAndStorage 200 true sPtoNullIdle).fb = [Feedback.ptoError])
    ∧ (∀ a ∈ (startIntakeAndStorage 200 true sPtoNullIdle).tr,
          isNonzeroVelCmd a = false ∧
          (sPtoNullIdle.scoring_active = false → a = Act.ptoCmd false))
    ∧ (sPtoNullIdle.scoring_active = false →
          (startIntakeAndStorage 200 true sPtoNullIdle).st = sPtoNullIdle)
    ∧ (sPtoNullIdle.scoring_active = true →
          (startIntakeAndStorage 200 true sPtoNullIdle).st = (stopAll sPtoNullIdle).st)) :=
  ⟨by decide, Or.inl rfl,
   pto_error_rejection sPtoNullIdle 200 true (by decide) (Or.inl rfl)⟩

/-! Claim C9: one-shot snapshot and restore, idempotent stopEjection. -/

/-- Claim C9: a successful startEjection captures exactly one snapshot of
the scoring controller (validated and filled from its pre-ejection state);
stopEjection on an active ejection performs the one restore attempt and
leaves the snapshot invalid regardless of the restore outcome; and a
stopEjection call while no ejection is active is a complete no-op. -/
theorem ejection_snapshot_lifecycle :
    (∀ (sys : SortSystem) (now : Nat) (ok : Bool),
        sys.cs.ejection_active = false →
        stopEjection now ok sys = ⟨sys, [], []⟩)
  ∧ (∀ (sys : SortSystem) (ix : IndexerState) (now : Nat) (ok : Bool),
        sys.cs.ejection_active = true → sys.idx = Option.some ix →
        (stopEjection now ok sys).sys.cs.saved_indexer_state.valid = false)
  ∧ (∀ (sys : SortSystem) (ix : IndexerState) (now : Nat) (ok : Bool),
        sys.cs.ejection_active = false → sys.idx = Option.some ix →
        ix.scoring_active = false →
        (startEjection now ok sys).sys.cs.saved_indexer_state =
          ⟨ix.scoring_active, ix.input_motor_active,
           ix.current_mode.toInt, ix.last_direction.toInt, true⟩
      ∧ (startEjection now ok sys).sys.cs.ejection_active = true
      ∧ (startEjection now ok sys).sys.cs.balls_ejected = sys.cs.balls_ejected + 1) := by
  refine ⟨?_, ?_, ?_⟩
  · intro sys now ok h
    rcases hidx : sys.idx with _ | ix <;> simp [stopEjection, hidx, h]
  · intro sys ix now ok h hidx
    by_cases hv : sys.cs.saved_indexer_state.valid = false
    · simp [stopEjection, hidx, h, restoreIndexerState, resetDetectionState, hv]
    · by_cases hw : sys.cs.saved_indexer_state.was_scoring_active = true
      · by_cases hm4 : (sys.cs.saved_indexer_state.saved_scoring_mode = 0 ∨
            sys.cs.saved_indexer_state.saved_scoring_mode = 1 ∨
            sys.cs.saved_indexer_state.saved_scoring_mode = 2 ∨
            sys.cs.saved_indexer_state.saved_scoring_mode = 3) <;>
          simp [stopEjection, hidx, h, restoreIndexerState, resetDetectionState,
            hv, hw, hm4]
      · simp [stopEjection, hidx, h, restoreIndexerState, resetDetectionState, hv, hw]
  · intro sys ix now ok h hidx hscor
    simp [startEjection, hidx, h, hscor, saveIndexerState]

/-- Witness for C9: starting an ejection on the idle system and stopping
one on the ejecting system; a stop on the idle system is a no-op. -/
theorem ejection_snapshot_lifecycle_witness :
    (sysIdle.cs.ejection_active = false ∧ stopEjection 700 true sysIdle = ⟨sysIdle, [], []⟩)
  ∧ (sysEjecting.cs.ejection_active = true
      ∧ (stopEjection 700 true sysEjecting).sys.cs.saved_indexer_state.valid = false)
  ∧ (sysIdle.cs.ejection_active = false
      ∧ initState.scoring_active = false
      ∧ (startEjection 100 true sysIdle).sys.cs.saved_indexer_state =
          ⟨initState.scoring_active, initState.input_motor_active,
           initState.current_mode.toInt, initState.last_direction.toInt, true⟩
      ∧ (startEjection 100 true sysIdle).sys.cs.ejection_active = true
      ∧ (startEjection 100 true sysIdle).sys.cs.balls_ejected = sysIdle.cs.balls_ejected + 1) := by
  refine ⟨⟨rfl, ejection_snapshot_lifecycle.1 sysIdle 700 true rfl⟩,
          ⟨rfl, ejection_snapshot_lifecycle.2.1 sysEjecting _ 700 true rfl rfl⟩,
          ⟨rfl, rfl, ejection_snapshot_lifecycle.2.2 sysIdle initState 100 true rfl rfl rfl⟩⟩

/-! Claim C10: snapshots of successful ejections are always idle. -/

/-- Claim C10: because startEjection refuses to begin while the scoring
controller is active, every snapshot captured at a successful ejection
start has was_scoring_active = false; a restore from such a snapshot
issues no command at all and does not touch the indexer (the resume
branch is unreachable); consequently a completed ejection leaves the
scoring controller exactly in its stopAll state — inactive, direction
cleared, all four velocities zero. -/
theorem ejection_preserves_idle :
    (∀ (sys : SortSystem) (ix : IndexerState) (now : Nat) (ok : Bool),
        sys.cs.ejection_active = false → sys.idx = Option.some ix →
        ix.scoring_active = false →
        (startEjection now ok sys).sys.cs.saved_indexer_state.was_scoring_active = false)
  ∧ (∀ (sys : SortSystem) (now : Nat) (ok : Bool),
        sys.cs.saved_indexer_state.was_scoring_active = false →
        (restoreIndexerState now ok sys).tr = []
      ∧ (restoreIndexerState now ok sys).fb = []
      ∧ (restoreIndexerState now ok sys).sys.idx = sys.idx)
  ∧ (∀ (sys : SortSystem) (ix : IndexerState) (now : Nat) (ok : Bool),
        sys.cs.ejection_active = true → sys.idx = Option.some ix →
        sys.cs.saved_indexer_state.was_scoring_active = false →
        (stopEjection now ok sys).sys.idx = Option.some (stopAll ix).st
      ∧ (stopEjection now ok sys).tr = (stopAll ix).tr
      ∧ (stopAll ix).st.scoring_active = false
      ∧ (stopAll ix).st.last_direction = ExecutionDirection.NONE
      ∧ (stopAll ix).st.input_vel = 0 ∧ (stopAll ix).st.left_vel = 0
      ∧ (stopAll ix).st.right_vel = 0 ∧ (stopAll ix).st.top_vel = 0) := by
  refine ⟨?_, ?_, ?_⟩
  · intro sys ix now ok h hidx hscor
    simp [startEjection, hidx, h, hscor, saveIndexerState]
  · intro sys now ok hw
    rcases hidx : sys.idx with _ | ix
    · simp [restoreIndexerState, hidx]
    · by_cases hv : sys.cs.saved_indexer_state.valid = false <;>
        simp [restoreIndexerState, hidx, hv, hw]
  · intro sys ix now ok h hidx hw
    by_cases hv : sys.cs.saved_indexer_state.valid = false <;>
      simp [stopEjection, hidx, h, restoreIndexerState, resetDetectionState, hv, hw]

/-- Witness for C10 on the idle and the ejecting concrete systems. -/
theorem ejection_preserves_idle_witness :
    (sysIdle.cs.ejection_active = false ∧ initState.scoring_active = false
      ∧ (startEjection 100 true sysIdle).sys.cs.saved_indexer_state.was_scoring_active = false)
  ∧ (sysEjecting.cs.saved_indexer_state.was_scoring_active = false
      ∧ (restoreIndexerState 700 true sysEjecting).tr = []
      ∧ (restoreIndexerState 700 true sysEjecting).fb = []
      ∧ (restoreIndexerState 700 true sysEjecting).sys.idx = sysEjecting.idx)
  ∧ (sysEjecting.cs.ejection_active = true
      ∧ sysEjecting.idx = Option.some ixEjecting
      ∧ ((stopEjection 700 true sysEjecting).sys.idx = Option.some (stopAll ixEjecting).st
        ∧ (stopEjection 700 true sysEjecting).tr = (stopAll ixEjecting).tr
        ∧ (stopAll ixEjecting).st.scoring_active = false
        ∧ (stopAll ixEjecting).st.last_direction = ExecutionDirection.NONE
        ∧ (stopAll ixEjecting).st.input_vel = 0 ∧ (stopAll ixEjecting).st.left_vel = 0
        ∧ (stopAll ixEjecting).st.right_vel = 0 ∧ (stopAll ixEjecting).st.top_vel = 0)) :=
  ⟨⟨rfl, rfl, ejection_preserves_idle.1 sysIdle initState 100 true rfl rfl rfl⟩,
   ⟨rfl, ejection_preserves_idle.2.1 sysEjecting 700 true rfl⟩,
   ⟨rfl, rfl, ejection_preserves_idle.2.2 sysEjecting ixEjecting 700 true rfl rfl rfl⟩⟩
